import Mathlib

set_option maxRecDepth 4000

/-!
Verification of the Code-Review-Assistant pipeline.

Shallow embedding of the Python sources:
  app/services/diff_utils.py  (prune_patch)
  app/services/analyzers.py   (run_semgrep, run_bandit)
  app/scripts/ci_review.py    (summarize_semgrep, summarize_bandit, try_llm,
                               diff bundling, posting fallback, main)

Strings are modelled as `List Char`; Python slicing with a possibly negative
start index is modelled by `sliceFrom`.  External collaborators (subprocesses,
the JSON parser, the host HTTP API, the model backend) are modelled by
explicit inputs: a process result record, a parse function parameter, and an
environment record carrying the stubbed responses.  A Python exception that
escapes to the top-level handler in `main` is modelled by the run ending with
exit code 1 and no further effects.
-/

def chars (s : String) : List Char := s.toList

/-- Python slice `s[i:]` for an arbitrary integer start index `i`:
a negative index counts from the end, clamped at 0. -/
def sliceFrom (s : List Char) (i : Int) : List Char :=
  if 0 ≤ i then s.drop i.toNat else s.drop ((s.length : Int) + i).toNat

/-- The separator literal `"\n...\n"` inserted by `prune_patch` (5 characters). -/
def SEP : List Char := chars "\n...\n"

/-- Embedding of `diff_utils.prune_patch`.  Source:
    if not patch: return ""
    if len(patch) <= max_chars: return patch
    head = patch[:800]
    tail = patch[-(max_chars - 800 - 7):]  # 7 for the separator
    return head + "\n...\n" + tail -/
def prune_patch (patch : List Char) (max_chars : Nat) : List Char :=
  if patch = [] then []
  else if patch.length ≤ max_chars then patch
  else patch.take 800 ++ SEP ++ sliceFrom patch (-((max_chars : Int) - 800 - 7))

/-!
Embedding of `app/services/analyzers.py`.

The two analyzers are subprocess wrappers.  A completed process is a
`ProcResult` (return code, stdout, stderr); `json.loads` is an external
library call, modelled by an arbitrary parse function supplied as a
parameter, with `none` standing for a `JSONDecodeError`.
-/

structure ProcResult where
  returncode : Int
  stdout : List Char
  stderr : List Char

structure SemgrepStart where
  line : Option Int

structure SemgrepExtra where
  message : Option (List Char)

structure SemgrepFinding where
  path : Option (List Char)
  start : Option SemgrepStart
  check_id : Option (List Char)
  extra : Option SemgrepExtra

structure SemgrepResult where
  results : Option (List SemgrepFinding)

structure BanditFinding where
  filename : Option (List Char)
  line_number : Option Int
  test_id : Option (List Char)
  issue_text : Option (List Char)

structure BanditResult where
  results : Option (List BanditFinding)

/-- Models `res.stdout or "\x7b\x7d"`: an empty stdout is replaced by the
two-character empty-object text before parsing. -/
def loads_input (stdout : List Char) : List Char :=
  if stdout = [] then chars "\x7b\x7d" else stdout

/-- Embedding of `analyzers.run_semgrep`.  Source:
    if res.returncode not in (0, 1):
        raise RuntimeError(f"Semgrep failed: ...stderr")
    return json.loads(res.stdout or ...)
A parse failure propagates as an error. -/
def run_semgrep (parse : List Char → Option SemgrepResult) (res : ProcResult) :
    Except (List Char) SemgrepResult :=
  if ¬ (res.returncode = 0 ∨ res.returncode = 1) then
    Except.error (chars "Semgrep failed: " ++ res.stderr)
  else
    match parse (loads_input res.stdout) with
    | some v => Except.ok v
    | none => Except.error (chars "JSONDecodeError")

/-- Embedding of `analyzers.run_bandit`.  Source: same return-code check with
message "Bandit failed: ...", but the parse is wrapped in
try/except JSONDecodeError returning an explicit empty results object. -/
def run_bandit (parse : List Char → Option BanditResult) (res : ProcResult) :
    Except (List Char) BanditResult :=
  if ¬ (res.returncode = 0 ∨ res.returncode = 1) then
    Except.error (chars "Bandit failed: " ++ res.stderr)
  else
    match parse (loads_input res.stdout) with
    | some v => Except.ok v
    | none => Except.ok ⟨some []⟩

/-!
Embedding of the summarizers from `app/scripts/ci_review.py`.

Python f-string interpolation of a possibly-`None` value prints the literal
text `None`; `pyStr` and `pyStrInt` model that.
-/

def pyStr : Option (List Char) → List Char
  | some s => s
  | none => chars "None"

def pyStrInt : Option Int → List Char
  | some n => chars (toString n)
  | none => chars "None"

/-- Python `"\n".join`. -/
def joinNl : List (List Char) → List Char
  | [] => []
  | [l] => l
  | l :: ls => l ++ '\n' :: joinNl ls

/-- One rendered Semgrep finding, the f-string
`- <check_id> @ <path>:<line> — <message>` where
`line` is `(r.get("start") or ...).get("line")` and
`message` is `(r.get("extra") or ...).get("message")`. -/
def semgrep_line (r : SemgrepFinding) : List Char :=
  chars "- " ++ pyStr r.check_id ++ chars " @ " ++ pyStr r.path ++ chars ":" ++
    pyStrInt (r.start.getD ⟨none⟩).line ++ chars " — " ++
    pyStr (r.extra.getD ⟨none⟩).message

/-- Embedding of `summarize_semgrep`: take the first 25 results (a missing
`results` key defaults to the empty list), canonical sentence when empty,
else a newline-join of the rendered lines. -/
def summarize_semgrep (res : SemgrepResult) : List Char :=
  let items := (res.results.getD []).take 25
  if items.isEmpty then chars "No Semgrep findings."
  else joinNl (items.map semgrep_line)

/-- One rendered Bandit finding, the f-string
`- <test_id> @ <filename>:<line_number> — <issue_text>`. -/
def bandit_line (i : BanditFinding) : List Char :=
  chars "- " ++ pyStr i.test_id ++ chars " @ " ++ pyStr i.filename ++ chars ":" ++
    pyStrInt i.line_number ++ chars " — " ++ pyStr i.issue_text

/-- Embedding of `summarize_bandit`. -/
def summarize_bandit (res : BanditResult) : List Char :=
  let items := (res.results.getD []).take 25
  if items.isEmpty then chars "No Bandit findings."
  else joinNl (items.map bandit_line)

/-!
A decidable substring test on `List Char`, used to state "the body contains
..." properties.
-/

/-- `leadsWith sub s` holds when `sub` matches at the front of `s`. -/
def leadsWith : List Char → List Char → Bool
  | [], _ => true
  | _ :: _, [] => false
  | a :: as, b :: bs => a == b && leadsWith as bs

/-- `containsSeg sub s` holds when `sub` occurs contiguously inside `s`. -/
def containsSeg (sub : List Char) : List Char → Bool
  | [] => leadsWith sub []
  | c :: t => leadsWith sub (c :: t) || containsSeg sub t

/-!
Embedding of the orchestration in `app/scripts/ci_review.py` `main`.
-/

structure ChangedFile where
  filename : List Char
  patch : Option (List Char)

def MAX_DIFF_BUDGET : Nat := 7000

def PER_FILE_BUDGET : Nat := 2000

/-- One rendered diff entry, the f-string
`### <filename>` followed by a fenced diff block around the pruned patch. -/
def entry_of (f : ChangedFile) : List Char :=
  chars "### " ++ f.filename ++ chars "\n```diff\n" ++
    prune_patch (f.patch.getD []) PER_FILE_BUDGET ++ chars "\n```\n"

/-- Python truthiness of `f.get("patch")`: present and non-empty. -/
def has_patch (f : ChangedFile) : Bool := !(f.patch.getD []).isEmpty

/-- Embedding of the diff-bundling loop in `main`:
    for f in changed or []:
        p = f.get("patch")
        if not p: continue
        pp = prune_patch(p, PER_FILE_BUDGET)
        entry = ...
        if total + len(entry) > MAX_DIFF_BUDGET: break
        diffs.append(entry); total += len(entry)
Returns the collected entries and the final running total. -/
def collect_diffs : List ChangedFile → Nat → List (List Char) × Nat
  | [], total => ([], total)
  | f :: rest, total =>
    if (f.patch.getD []).isEmpty then collect_diffs rest total
    else
      let entry := entry_of f
      if MAX_DIFF_BUDGET < total + entry.length then ([], total)
      else
        let r := collect_diffs rest (total + entry.length)
        (entry :: r.1, r.2)

/-- Embedding of `get_changed_files`: on a status ≥ 400 the function logs and
calls `raise_for_status()`, i.e. raises; otherwise it returns the parsed
body. -/
def get_changed_files (status : Nat) (body : List ChangedFile) :
    Except (List Char) (List ChangedFile) :=
  if 400 ≤ status then Except.error (chars "HTTPStatusError") else Except.ok body

/-- Embedding of `try_llm`: the model call outcome is the stubbed
`Except`; on an exception `e` the fallback message is the f-string
`LLM unavailable or not ready. Proceeding with static analysis only.`
followed by a blank line and `> ` and the exception text. -/
def try_llm (outcome : Except (List Char) (List Char)) : Bool × List Char :=
  match outcome with
  | Except.ok answer => (true, answer)
  | Except.error e =>
    (false,
      chars "LLM unavailable or not ready. Proceeding with static analysis only." ++
        chars "\n\n> " ++ e)

/-- The prompt f-string of `main`: base template, a DIFFS section with the
joined entries, and a STATIC ANALYSIS section with both summaries. -/
def build_prompt (base diffsJoined stxt btxt : List Char) : List Char :=
  base ++ chars "\n\n# DIFFS\n" ++ diffsJoined ++
    chars "\n\n# STATIC ANALYSIS\n## Semgrep\n" ++ stxt ++
    chars "\n\n## Bandit\n" ++ btxt ++ chars "\n"

/-- The posted body when the model call succeeded. -/
def body_success (answer : List Char) : List Char :=
  chars "## Automated Review (LLM + Static Analysis)\n\n" ++ answer ++
    chars "\n\n---\n<sub>Generated by Code Review Assistant (Semgrep/Bandit + Ollama)</sub>\n"

/-- The posted body when the model call failed: the fallback message plus
both raw summaries. -/
def body_fallback (msg stxt btxt : List Char) : List Char :=
  chars "## Automated Review (Static Analysis Only)\n\n" ++ msg ++
    chars "\n\n### Semgrep\n" ++ stxt ++ chars "\n\n### Bandit\n" ++ btxt ++
    chars "\n\n---\n<sub>Generated by Code Review Assistant (Semgrep/Bandit)</sub>\n"

/-- One write request performed against the host API. -/
inductive Post where
  | review (body : List Char)
  | issueComment (body : List Char)

/-- The stubbed external world of one run: the two analyzer outcomes, the
changed-files response (status and parsed body), the resolved prompt base
(the template file or the inline default), the model-call outcome, and the
statuses returned by the two write endpoints. -/
structure Env where
  semgrep : Except (List Char) SemgrepResult
  bandit : Except (List Char) BanditResult
  filesStatus : Nat
  filesBody : List ChangedFile
  promptBase : List Char
  llm : Except (List Char) (List Char)
  reviewStatus : Nat
  commentStatus : Nat

/-- Observable outcome of one run: the write requests made in order, the
prompt that was composed (empty when the run aborted before composing it),
and the process exit code. -/
structure RunResult where
  posts : List Post
  promptUsed : List Char
  exitCode : Nat

/-- Embedding of `ci_review.main`: analyzers, changed-files fetch (a raised
exception from any of these reaches the top-level handler, which exits 1),
diff bundling, prompt composition, model call with fallback text, body
construction, then the two-tier posting: primary review post, on status ≥ 400
the issue-comment fallback with the same body, and exit 1 if both fail. -/
def main_run (env : Env) : RunResult :=
  match env.semgrep with
  | Except.error _ => ⟨[], [], 1⟩
  | Except.ok sres =>
    match env.bandit with
    | Except.error _ => ⟨[], [], 1⟩
    | Except.ok bres =>
      match get_changed_files env.filesStatus env.filesBody with
      | Except.error _ => ⟨[], [], 1⟩
      | Except.ok changed =>
        let diffs := (collect_diffs changed 0).1
        let stxt := summarize_semgrep sres
        let btxt := summarize_bandit bres
        let prompt := build_prompt env.promptBase diffs.flatten stxt btxt
        let ans := try_llm env.llm
        let body := if ans.1 then body_success ans.2 else body_fallback ans.2 stxt btxt
        if 400 ≤ env.reviewStatus then
          if 400 ≤ env.commentStatus then
            ⟨[Post.review body, Post.issueComment body], prompt, 1⟩
          else
            ⟨[Post.review body, Post.issueComment body], prompt, 0⟩
        else
          ⟨[Post.review body], prompt, 0⟩

/-!
Concrete inputs for the end-to-end scenarios and witnesses.
-/

/-- One Semgrep finding with a line number. -/
def sem_f1 : SemgrepFinding :=
  ⟨some (chars "app/x.py"), some ⟨some 3⟩, some (chars "rule.one"),
    some ⟨some (chars "bad call")⟩⟩

/-- One Semgrep finding without a `start` object (no line number). -/
def sem_noline : SemgrepFinding :=
  ⟨some (chars "a.py"), none, some (chars "r1"), some ⟨some (chars "m1")⟩⟩

def file_a : ChangedFile := ⟨chars "a.py", some (chars "+x=1")⟩

def file_b : ChangedFile := ⟨chars "b.py", some (chars "-y=2")⟩

/-- End-to-end scenario 1: one Semgrep finding, zero Bandit findings, two
small changed files, model call succeeds, primary post succeeds. -/
def env_scenario1 : Env :=
  ⟨Except.ok ⟨some [sem_f1]⟩, Except.ok ⟨some []⟩, 200, [file_a, file_b],
    chars "BASE", Except.ok (chars "MODEL ANSWER"), 201, 200⟩

/-- A run whose changed-files request returns status 500. -/
def env_fetch_fail : Env :=
  ⟨Except.ok ⟨some []⟩, Except.ok ⟨some []⟩, 500, [], chars "BASE",
    Except.ok (chars "A"), 200, 200⟩

/-- A run whose changed-files request returns status 404. -/
def env_fetch_fail2 : Env :=
  ⟨Except.ok ⟨some []⟩, Except.ok ⟨some []⟩, 404, [], chars "BASE",
    Except.ok (chars "A"), 200, 200⟩

/-- A run whose primary post returns 500 and whose fallback post succeeds. -/
def env_post_fallback : Env :=
  ⟨Except.ok ⟨some []⟩, Except.ok ⟨some []⟩, 200, [file_a], chars "BASE",
    Except.ok (chars "A"), 500, 201⟩

/-- A run whose model call raises. -/
def env_model_down : Env :=
  ⟨Except.ok ⟨some []⟩, Except.ok ⟨some []⟩, 200, [], chars "BASE",
    Except.error (chars "conn refused"), 200, 200⟩

/-!
Theorems.
-/

theorem SEP_length : SEP.length = 5 := rfl

/-- A patch within budget is returned unchanged. -/
theorem prune_short (p : List Char) (b : Nat) (h : p.length ≤ b) :
    prune_patch p b = p := by
  by_cases hp : p = [] <;> simp [prune_patch, hp, h]

/-- For budgets of at least 808, an over-budget patch prunes to exactly
`b - 2` characters (the code reserves 7 characters for a 5-character
separator). -/
theorem prune_length_long (p : List Char) (b : Nat) (hb : 808 ≤ b)
    (hp : b < p.length) : (prune_patch p b).length = b - 2 := by
  have hne : p ≠ [] := by
    intro h0
    rw [h0] at hp
    simp at hp
  have hgt : ¬ p.length ≤ b := Nat.not_le.mpr hp
  unfold prune_patch sliceFrom
  rw [if_neg hne, if_neg hgt, if_neg (by omega : ¬ (0 : Int) ≤ -((b : Int) - 800 - 7))]
  simp only [List.length_append, List.length_take, List.length_drop, SEP_length]
  rw [Nat.min_eq_left (by omega : 800 ≤ p.length)]
  omega

/-- For budgets of at most 807 the tail slice index `-(b - 807)` is
non-negative, so the slice drops `807 - b` characters from the front instead
of selecting a bounded tail. -/
theorem prune_length_small (p : List Char) (b : Nat) (hb : b ≤ 807)
    (hp : b < p.length) :
    (prune_patch p b).length = min 800 p.length + 5 + (p.length - (807 - b)) := by
  have hne : p ≠ [] := by
    intro h0
    rw [h0] at hp
    simp at hp
  have hgt : ¬ p.length ≤ b := Nat.not_le.mpr hp
  unfold prune_patch sliceFrom
  rw [if_neg hne, if_neg hgt, if_pos (by omega : (0 : Int) ≤ -((b : Int) - 800 - 7))]
  simp only [List.length_append, List.length_take, List.length_drop, SEP_length]
  omega

/-- C1: on a 2001-character patch with budget 2000 the code returns a
1998-character string, not the 2000 characters the claim demands: the code
reserves 7 characters for the separator but the separator has 5. -/
theorem C1_prune_not_exact_budget :
    (prune_patch (List.replicate 2001 'a') 2000).length = 1998 ∧
    (prune_patch (List.replicate 2001 'a') 2000).length ≠ 2000 := by
  have h : (prune_patch (List.replicate 2001 'a') 2000).length = 1998 := by
    rw [prune_length_long _ _ (by norm_num) (by simp only [List.length_replicate]; norm_num)]
  exact ⟨h, by omega⟩

/-- C9: pruning is not idempotent at every budget: at budget 807 the
808-character patch prunes to a 1613-character string, which re-prunes to a
different (2418-character) string. -/
theorem C9_counterexample :
    prune_patch (prune_patch (List.replicate 808 'a') 807) 807 ≠
      prune_patch (List.replicate 808 'a') 807 := by
  have h1 : (prune_patch (List.replicate 808 'a') 807).length = 1613 := by
    rw [prune_length_small _ _ (by norm_num) (by simp only [List.length_replicate]; norm_num)]
    simp only [List.length_replicate]
    omega
  have h2 : (prune_patch (prune_patch (List.replicate 808 'a') 807) 807).length
      = 2418 := by
    rw [prune_length_small _ _ (by norm_num) (by omega), h1]
    omega
  intro h
  rw [h, h1] at h2
  omega

/-- C9 amended: the empty patch prunes to the empty string and a patch within
budget is unchanged, at every budget; idempotence `prune (prune p b) b =
prune p b` holds for every budget `b ≥ 808` (at smaller budgets the tail
slice index `b - 807` stops selecting a bounded tail and idempotence fails). -/
theorem C9_prune_idempotent (p : List Char) (b : Nat) :
    prune_patch [] b = [] ∧
    (p.length ≤ b → prune_patch p b = p) ∧
    (808 ≤ b → prune_patch (prune_patch p b) b = prune_patch p b) := by
  refine ⟨by simp [prune_patch], fun h => prune_short p b h, fun hb => ?_⟩
  by_cases hlen : p.length ≤ b
  · rw [prune_short p b hlen]
    exact prune_short p b hlen
  · have hlen' : b < p.length := Nat.not_le.mp hlen
    have hr : (prune_patch p b).length = b - 2 := prune_length_long p b hb hlen'
    exact prune_short _ b (by omega)

/-- C9 witness: the amended idempotence at budget 900 on a 1000-character
patch, and the unchanged-within-budget case on a 5-character patch. -/
theorem C9_prune_idempotent_witness :
    prune_patch (List.replicate 5 'a') 900 = List.replicate 5 'a' ∧
    prune_patch (prune_patch (List.replicate 1000 'a') 900) 900 =
      prune_patch (List.replicate 1000 'a') 900 :=
  ⟨(C9_prune_idempotent (List.replicate 5 'a') 900).2.1
      (by simp only [List.length_replicate]; norm_num),
   (C9_prune_idempotent (List.replicate 1000 'a') 900).2.2 (by norm_num)⟩

/-- C10: the bounded-output guarantee of the pruner holds for every budget
`b ≥ 808` (the output has `b - 2 ≤ b` characters), and fails below: at budget
807 the 808-character patch — which is longer than the budget — prunes to a
1613-character string, strictly longer than 807. -/
theorem C10_prune_bound_threshold :
    (∀ (p : List Char) (b : Nat), 808 ≤ b → b < p.length →
      (prune_patch p b).length ≤ b) ∧
    807 < (List.replicate 808 'a').length ∧
    807 < (prune_patch (List.replicate 808 'a') 807).length := by
  refine ⟨fun p b hb hp => ?_, by simp only [List.length_replicate]; norm_num, ?_⟩
  · rw [prune_length_long p b hb hp]
    omega
  · rw [prune_length_small _ _ (by norm_num) (by simp only [List.length_replicate]; norm_num)]
    simp only [List.length_replicate]
    omega

/-- C10 witness: the bound at budget 808 on a concrete 1000-character patch. -/
theorem C10_prune_bound_witness :
    (prune_patch (List.replicate 1000 'a') 808).length ≤ 808 :=
  C10_prune_bound_threshold.1 (List.replicate 1000 'a') 808 (by norm_num)
    (by simp only [List.length_replicate]; norm_num)

theorem leadsWith_append (sub b : List Char) : leadsWith sub (sub ++ b) = true := by
  induction sub with
  | nil => rfl
  | cons a as ih => simp [leadsWith, ih]

theorem containsSeg_head (sub b : List Char) : containsSeg sub (sub ++ b) = true := by
  cases sub with
  | nil =>
    cases b with
    | nil => rfl
    | cons c t => simp [containsSeg, leadsWith]
  | cons a as =>
    have h : leadsWith (a :: as) (a :: (as ++ b)) = true := leadsWith_append (a :: as) b
    simp [containsSeg]
    exact Or.inl h

theorem containsSeg_cons (sub : List Char) (c : Char) (t : List Char)
    (h : containsSeg sub t = true) : containsSeg sub (c :: t) = true := by
  simp [containsSeg, h]

theorem containsSeg_append_left (a sub s : List Char)
    (h : containsSeg sub s = true) : containsSeg sub (a ++ s) = true := by
  induction a with
  | nil => simpa using h
  | cons c cs ih => exact containsSeg_cons sub c (cs ++ s) ih

/-- If `s` decomposes as `a ++ sub ++ b` then `sub` occurs inside `s`. -/
theorem containsSeg_of_eq (sub s a b : List Char) (h : s = a ++ sub ++ b) :
    containsSeg sub s = true := by
  subst h
  rw [List.append_assoc]
  exact containsSeg_append_left a sub (sub ++ b) (containsSeg_head sub b)

theorem sum_take_le (l : List Nat) (j : Nat) : (l.take j).sum ≤ l.sum := by
  induction l generalizing j with
  | nil => simp
  | cons a t ih =>
    cases j with
    | zero => simp
    | succ j =>
      rw [List.take_succ_cons, List.sum_cons, List.sum_cons]
      exact Nat.add_le_add_left (ih j) a

/-- Invariant of the bundling loop, generalised over the running total: the
collected entries are the rendered prefix of the patch-bearing files, the
final total is the initial total plus the included entry lengths, it stays
within the budget, and if a patch-bearing file was left out then the first
one left out would have pushed the total over the budget. -/
theorem collect_diffs_spec (files : List ChangedFile) :
    ∀ total : Nat, total ≤ MAX_DIFF_BUDGET →
    ∃ k, k ≤ (files.filter has_patch).length ∧
      (collect_diffs files total).1 =
        ((files.filter has_patch).take k).map entry_of ∧
      (collect_diffs files total).2 =
        total + (((files.filter has_patch).take k).map
          (fun f => (entry_of f).length)).sum ∧
      (collect_diffs files total).2 ≤ MAX_DIFF_BUDGET ∧
      (∀ g ts, (files.filter has_patch).drop k = g :: ts →
        MAX_DIFF_BUDGET < (collect_diffs files total).2 + (entry_of g).length) := by
  induction files with
  | nil =>
    intro total htotal
    refine ⟨0, by simp, by simp [collect_diffs], by simp [collect_diffs], ?_, ?_⟩
    · simpa [collect_diffs] using htotal
    · intro g ts hg
      simp at hg
  | cons f rest ih =>
    intro total htotal
    by_cases hpf : (f.patch.getD []).isEmpty
    · have hfp : has_patch f = false := by simp [has_patch, hpf]
      have hcd : collect_diffs (f :: rest) total = collect_diffs rest total := by
        simp only [collect_diffs, if_pos hpf]
      have hfl : (f :: rest).filter has_patch = rest.filter has_patch := by
        simp [List.filter_cons, hfp]
      rw [hcd, hfl]
      exact ih total htotal
    · have hfp : has_patch f = true := by simp [has_patch, hpf]
      have hfl : (f :: rest).filter has_patch = f :: rest.filter has_patch := by
        simp [List.filter_cons, hfp]
      by_cases hover : MAX_DIFF_BUDGET < total + (entry_of f).length
      · have hcd : collect_diffs (f :: rest) total = ([], total) := by
          simp only [collect_diffs, if_neg hpf, if_pos hover]
        rw [hcd, hfl]
        refine ⟨0, by simp, by simp, by simp, htotal, ?_⟩
        intro g ts hg
        simp only [List.drop_zero] at hg
        injection hg with h1 _
        rw [← h1]
        exact hover
      · have hcd1 : (collect_diffs (f :: rest) total).1 =
            entry_of f :: (collect_diffs rest (total + (entry_of f).length)).1 := by
          simp only [collect_diffs, if_neg hpf, if_neg hover]
        have hcd2 : (collect_diffs (f :: rest) total).2 =
            (collect_diffs rest (total + (entry_of f).length)).2 := by
          simp only [collect_diffs, if_neg hpf, if_neg hover]
        obtain ⟨k, hk, h1, h2, h3, h4⟩ :=
          ih (total + (entry_of f).length) (by omega)
        refine ⟨k + 1, ?_, ?_, ?_, ?_, ?_⟩
        · rw [hfl]
          simp only [List.length_cons]
          omega
        · rw [hcd1, hfl, List.take_succ_cons, List.map_cons, h1]
        · rw [hcd2, hfl, List.take_succ_cons, List.map_cons, List.sum_cons, h2]
          omega
        · rw [hcd2]
          exact h3
        · intro g ts hg
          rw [hfl, List.drop_succ_cons] at hg
          rw [hcd2]
          exact h4 g ts hg

/-- C4: the bundle built by `main` (initial total 0) is the rendered prefix
of the patch-bearing files in input order; the running total equals the sum
of the included entry lengths, never exceeds MAX_DIFF_BUDGET at any step,
and bundling stopped exactly at the first entry whose addition would exceed
the budget. -/
theorem C4_diff_budget (files : List ChangedFile) :
    ∃ k, k ≤ (files.filter has_patch).length ∧
      (collect_diffs files 0).1 = ((files.filter has_patch).take k).map entry_of ∧
      (collect_diffs files 0).2 = ((collect_diffs files 0).1.map List.length).sum ∧
      (collect_diffs files 0).2 ≤ MAX_DIFF_BUDGET ∧
      (∀ j, (((collect_diffs files 0).1.take j).map List.length).sum ≤
        MAX_DIFF_BUDGET) ∧
      (∀ g ts, (files.filter has_patch).drop k = g :: ts →
        MAX_DIFF_BUDGET < (collect_diffs files 0).2 + (entry_of g).length) := by
  obtain ⟨k, hk, h1, h2, h3, h4⟩ := collect_diffs_spec files 0 (by norm_num)
  have hsum : (collect_diffs files 0).2 =
      ((collect_diffs files 0).1.map List.length).sum := by
    rw [h1, List.map_map]
    simpa using h2
  refine ⟨k, hk, h1, hsum, h3, fun j => ?_, h4⟩
  rw [List.map_take]
  exact le_trans (sum_take_le _ j) (hsum ▸ h3)

/-- C4 witness: the bundling invariant at the concrete two-file input. -/
theorem C4_diff_budget_witness :
    ∃ k, k ≤ ([file_a, file_b].filter has_patch).length ∧
      (collect_diffs [file_a, file_b] 0).1 =
        (([file_a, file_b].filter has_patch).take k).map entry_of ∧
      (collect_diffs [file_a, file_b] 0).2 =
        ((collect_diffs [file_a, file_b] 0).1.map List.length).sum ∧
      (collect_diffs [file_a, file_b] 0).2 ≤ MAX_DIFF_BUDGET ∧
      (∀ j, (((collect_diffs [file_a, file_b] 0).1.take j).map List.length).sum ≤
        MAX_DIFF_BUDGET) ∧
      (∀ g ts, ([file_a, file_b].filter has_patch).drop k = g :: ts →
        MAX_DIFF_BUDGET <
          (collect_diffs [file_a, file_b] 0).2 + (entry_of g).length) :=
  C4_diff_budget [file_a, file_b]

/-- C2: the claim fails on the code: with a status-500 changed-files
response (and every other collaborator healthy) the run does not proceed
with an empty diff bundle — `raise_for_status` aborts it: no prompt is
composed, nothing is posted, and the process exits with code 1. -/
theorem C2_counterexample :
    main_run env_fetch_fail = ⟨[], [], 1⟩ ∧
    (main_run env_fetch_fail).posts = [] ∧
    (main_run env_fetch_fail).exitCode = 1 := by
  exact ⟨rfl, rfl, rfl⟩

/-- C2 amended: a status ≥ 400 from the changed-files read endpoint is
fatal: `get_changed_files` raises after logging, the exception reaches the
top-level handler of `main`, and the process exits 1 having posted nothing
(whatever the rest of the environment holds). -/
theorem C2_fetch_failure_fatal (env : Env) (h : 400 ≤ env.filesStatus) :
    main_run env = ⟨[], [], 1⟩ := by
  have hg : get_changed_files env.filesStatus env.filesBody =
      Except.error (chars "HTTPStatusError") := by
    unfold get_changed_files
    rw [if_pos h]
  cases hs : env.semgrep with
  | error e => simp only [main_run, hs]
  | ok s =>
    cases hb : env.bandit with
    | error e => simp only [main_run, hs, hb]
    | ok b => simp only [main_run, hs, hb, hg]

/-- C2 witness: the amended fatality at the concrete status-404 run. -/
theorem C2_fetch_failure_fatal_witness :
    main_run env_fetch_fail2 = ⟨[], [], 1⟩ :=
  C2_fetch_failure_fatal env_fetch_fail2 (by norm_num [env_fetch_fail2])

/-- C6: for any parse outcomes and process result, exit codes 0 and 1
proceed (a successful parse is returned as-is), any other exit code is a
hard failure carrying the tool's stderr for both tools, a Bandit parse
failure degrades to the empty findings object, and a Semgrep parse failure
propagates as an error. -/
theorem C6_analyzer_exit_and_parse
    (parseS : List Char → Option SemgrepResult)
    (parseB : List Char → Option BanditResult) (res : ProcResult) :
    (¬ (res.returncode = 0 ∨ res.returncode = 1) →
      run_semgrep parseS res = Except.error (chars "Semgrep failed: " ++ res.stderr) ∧
      run_bandit parseB res = Except.error (chars "Bandit failed: " ++ res.stderr)) ∧
    ((res.returncode = 0 ∨ res.returncode = 1) →
      (∀ v, parseS (loads_input res.stdout) = some v →
        run_semgrep parseS res = Except.ok v) ∧
      (∀ v, parseB (loads_input res.stdout) = some v →
        run_bandit parseB res = Except.ok v) ∧
      (parseS (loads_input res.stdout) = none →
        run_semgrep parseS res = Except.error (chars "JSONDecodeError")) ∧
      (parseB (loads_input res.stdout) = none →
        run_bandit parseB res = Except.ok ⟨some []⟩)) := by
  constructor
  · intro h
    constructor
    · unfold run_semgrep
      rw [if_pos h]
    · unfold run_bandit
      rw [if_pos h]
  · intro h
    have hc : ¬ ¬ (res.returncode = 0 ∨ res.returncode = 1) := not_not_intro h
    refine ⟨fun v hv => ?_, fun v hv => ?_, fun hn => ?_, fun hn => ?_⟩
    · unfold run_semgrep
      rw [if_neg hc, hv]
    · unfold run_bandit
      rw [if_neg hc, hv]
    · unfold run_semgrep
      rw [if_neg hc, hn]
    · unfold run_bandit
      rw [if_neg hc, hn]

/-- C6 witness: exit code 2 fails both tools with the stderr text; at exit
code 0, a failing parse degrades Bandit to empty findings and errors
Semgrep. -/
theorem C6_analyzer_witness :
    run_semgrep (fun _ => none) ⟨2, chars "o", chars "boom"⟩ =
      Except.error (chars "Semgrep failed: " ++ chars "boom") ∧
    run_bandit (fun _ => none) ⟨2, chars "o", chars "boom"⟩ =
      Except.error (chars "Bandit failed: " ++ chars "boom") ∧
    run_semgrep (fun _ => none) ⟨0, chars "bad", chars ""⟩ =
      Except.error (chars "JSONDecodeError") ∧
    run_bandit (fun _ => none) ⟨0, chars "bad", chars ""⟩ =
      Except.ok ⟨some []⟩ :=
  ⟨((C6_analyzer_exit_and_parse (fun _ => none) (fun _ => none)
      ⟨2, chars "o", chars "boom"⟩).1 (by decide)).1,
   ((C6_analyzer_exit_and_parse (fun _ => none) (fun _ => none)
      ⟨2, chars "o", chars "boom"⟩).1 (by decide)).2,
   ((C6_analyzer_exit_and_parse (fun _ => none) (fun _ => none)
      ⟨0, chars "bad", chars ""⟩).2 (Or.inl rfl)).2.2.1 rfl,
   ((C6_analyzer_exit_and_parse (fun _ => none) (fun _ => none)
      ⟨0, chars "bad", chars ""⟩).2 (Or.inl rfl)).2.2.2 rfl⟩

/-- C8: the claim fails on the code: a finding with no line number renders
the literal text `None` in the line position (Python `str(None)`), not an
omitted or blank line number. -/
theorem C8_counterexample :
    summarize_semgrep ⟨some [sem_noline]⟩ = chars "- r1 @ a.py:None — m1" ∧
    chars "- r1 @ a.py:None — m1" ≠ chars "- r1 @ a.py: — m1" ∧
    chars "- r1 @ a.py:None — m1" ≠ chars "- r1 @ a.py — m1" := by
  refine ⟨rfl, by decide, by decide⟩

/-- C8 amended: on an empty findings list each summarizer returns its
canonical no-findings sentence; on a non-empty list it returns the
newline-join of exactly `min 25 count` rendered lines, in input order, where
a finding with no line number renders the literal text `None` in the line
position. -/
theorem C8_summarize_shape (sres : SemgrepResult) (bres : BanditResult) :
    (sres.results.getD [] = [] →
      summarize_semgrep sres = chars "No Semgrep findings.") ∧
    (bres.results.getD [] = [] →
      summarize_bandit bres = chars "No Bandit findings.") ∧
    (sres.results.getD [] ≠ [] →
      summarize_semgrep sres =
        joinNl (((sres.results.getD []).take 25).map semgrep_line)) ∧
    (bres.results.getD [] ≠ [] →
      summarize_bandit bres =
        joinNl (((bres.results.getD []).take 25).map bandit_line)) ∧
    (((sres.results.getD []).take 25).map semgrep_line).length =
      min 25 (sres.results.getD []).length ∧
    (((bres.results.getD []).take 25).map bandit_line).length =
      min 25 (bres.results.getD []).length := by
  refine ⟨fun h => ?_, fun h => ?_, fun h => ?_, fun h => ?_, ?_, ?_⟩
  · simp only [summarize_semgrep, h, List.take_nil, List.isEmpty_nil, if_true]
  · simp only [summarize_bandit, h, List.take_nil, List.isEmpty_nil, if_true]
  · cases hl : sres.results.getD [] with
    | nil => exact absurd hl h
    | cons a t =>
      simp only [summarize_semgrep, hl]
      rw [show (a :: t).take 25 = a :: t.take 24 from rfl]
      simp [List.isEmpty_cons]
  · cases hl : bres.results.getD [] with
    | nil => exact absurd hl h
    | cons a t =>
      simp only [summarize_bandit, hl]
      rw [show (a :: t).take 25 = a :: t.take 24 from rfl]
      simp [List.isEmpty_cons]
  · simp [List.length_map, List.length_take]
  · simp [List.length_map, List.length_take]

/-- C8 witness: both empty cases, and the non-empty case at the
one-finding input, whose line count is `min 25 1 = 1`. -/
theorem C8_summarize_witness :
    summarize_semgrep ⟨none⟩ = chars "No Semgrep findings." ∧
    summarize_bandit ⟨some []⟩ = chars "No Bandit findings." ∧
    summarize_semgrep ⟨some [sem_f1]⟩ =
      joinNl ((([sem_f1] : List SemgrepFinding).take 25).map semgrep_line) ∧
    ((([sem_f1] : List SemgrepFinding).take 25).map semgrep_line).length =
      min 25 ([sem_f1] : List SemgrepFinding).length :=
  ⟨(C8_summarize_shape ⟨none⟩ ⟨some []⟩).1 rfl,
   (C8_summarize_shape ⟨none⟩ ⟨some []⟩).2.1 rfl,
   (C8_summarize_shape ⟨some [sem_f1]⟩ ⟨some []⟩).2.2.1 (by simp),
   (C8_summarize_shape ⟨some [sem_f1]⟩ ⟨some []⟩).2.2.2.2.1⟩

theorem body_fallback_has_stxt (msg stxt btxt : List Char) :
    containsSeg stxt (body_fallback msg stxt btxt) = true := by
  apply containsSeg_of_eq stxt (body_fallback msg stxt btxt)
    (chars "## Automated Review (Static Analysis Only)\n\n" ++ msg ++
      chars "\n\n### Semgrep\n")
    (chars "\n\n### Bandit\n" ++ btxt ++
      chars "\n\n---\n<sub>Generated by Code Review Assistant (Semgrep/Bandit)</sub>\n")
  simp [body_fallback, List.append_assoc]

theorem body_fallback_has_btxt (msg stxt btxt : List Char) :
    containsSeg btxt (body_fallback msg stxt btxt) = true := by
  apply containsSeg_of_eq btxt (body_fallback msg stxt btxt)
    (chars "## Automated Review (Static Analysis Only)\n\n" ++ msg ++
      chars "\n\n### Semgrep\n" ++ stxt ++ chars "\n\n### Bandit\n")
    (chars "\n\n---\n<sub>Generated by Code Review Assistant (Semgrep/Bandit)</sub>\n")
  simp [body_fallback, List.append_assoc]

theorem body_fallback_has_sentence (e stxt btxt : List Char) :
    containsSeg
      (chars "LLM unavailable or not ready. Proceeding with static analysis only.")
      (body_fallback
        (chars "LLM unavailable or not ready. Proceeding with static analysis only." ++
          chars "\n\n> " ++ e) stxt btxt) = true := by
  apply containsSeg_of_eq _ _
    (chars "## Automated Review (Static Analysis Only)\n\n")
    (chars "\n\n> " ++ e ++ chars "\n\n### Semgrep\n" ++ stxt ++
      chars "\n\n### Bandit\n" ++ btxt ++
      chars "\n\n---\n<sub>Generated by Code Review Assistant (Semgrep/Bandit)</sub>\n")
  simp [body_fallback, List.append_assoc]

/-- C5: when the run reaches the posting step and the primary review post
returns status ≥ 400, the issue-comment fallback is invoked exactly once,
with the identical body; the run exits 0 when the fallback status is < 400
and exits 1 when both statuses are ≥ 400. -/
theorem C5_post_fallback (env : Env) (sres : SemgrepResult) (bres : BanditResult)
    (hs : env.semgrep = Except.ok sres) (hb : env.bandit = Except.ok bres)
    (hf : env.filesStatus < 400) (hp : 400 ≤ env.reviewStatus) :
    ∃ body, (main_run env).posts = [Post.review body, Post.issueComment body] ∧
      (env.commentStatus < 400 → (main_run env).exitCode = 0) ∧
      (400 ≤ env.commentStatus → (main_run env).exitCode = 1) := by
  have hg : get_changed_files env.filesStatus env.filesBody =
      Except.ok env.filesBody := by
    unfold get_changed_files
    rw [if_neg (by omega)]
  by_cases hcc : 400 ≤ env.commentStatus
  · exact ⟨if (try_llm env.llm).1 then body_success (try_llm env.llm).2
        else body_fallback (try_llm env.llm).2 (summarize_semgrep sres)
          (summarize_bandit bres),
      by simp [main_run, hs, hb, hg, hp, hcc],
      fun hlt => absurd hlt (by omega),
      fun _ => by simp [main_run, hs, hb, hg, hp, hcc]⟩
  · exact ⟨if (try_llm env.llm).1 then body_success (try_llm env.llm).2
        else body_fallback (try_llm env.llm).2 (summarize_semgrep sres)
          (summarize_bandit bres),
      by simp [main_run, hs, hb, hg, hp, hcc],
      fun _ => by simp [main_run, hs, hb, hg, hp, hcc],
      fun hge => absurd hge hcc⟩

/-- C5 witness: the fallback protocol at the concrete run whose primary post
returns 500 and whose fallback returns 201. -/
theorem C5_post_fallback_witness :
    ∃ body, (main_run env_post_fallback).posts =
        [Post.review body, Post.issueComment body] ∧
      (env_post_fallback.commentStatus < 400 →
        (main_run env_post_fallback).exitCode = 0) ∧
      (400 ≤ env_post_fallback.commentStatus →
        (main_run env_post_fallback).exitCode = 1) :=
  C5_post_fallback env_post_fallback ⟨some []⟩ ⟨some []⟩ rfl rfl
    (by decide) (by decide)

/-- C7: when the model call raises, the run does not abort: a body is still
posted whose text contains the fallback sentence and both raw summaries, and
the run exits 0 when the primary post succeeds. -/
theorem C7_model_failure_degrades (env : Env) (sres : SemgrepResult)
    (bres : BanditResult) (e : List Char)
    (hs : env.semgrep = Except.ok sres) (hb : env.bandit = Except.ok bres)
    (hf : env.filesStatus < 400) (hl : env.llm = Except.error e) :
    ∃ body rest, (main_run env).posts = Post.review body :: rest ∧
      containsSeg
        (chars "LLM unavailable or not ready. Proceeding with static analysis only.")
        body = true ∧
      containsSeg (summarize_semgrep sres) body = true ∧
      containsSeg (summarize_bandit bres) body = true ∧
      (env.reviewStatus < 400 → (main_run env).exitCode = 0) := by
  have hg : get_changed_files env.filesStatus env.filesBody =
      Except.ok env.filesBody := by
    unfold get_changed_files
    rw [if_neg (by omega)]
  have hc1 := body_fallback_has_sentence e (summarize_semgrep sres)
    (summarize_bandit bres)
  have hc2 := body_fallback_has_stxt
    (chars "LLM unavailable or not ready. Proceeding with static analysis only." ++
      chars "\n\n> " ++ e) (summarize_semgrep sres) (summarize_bandit bres)
  have hc3 := body_fallback_has_btxt
    (chars "LLM unavailable or not ready. Proceeding with static analysis only." ++
      chars "\n\n> " ++ e) (summarize_semgrep sres) (summarize_bandit bres)
  by_cases hr : 400 ≤ env.reviewStatus
  · by_cases hcc : 400 ≤ env.commentStatus
    · exact ⟨_, [Post.issueComment (body_fallback
          (chars "LLM unavailable or not ready. Proceeding with static analysis only." ++
            chars "\n\n> " ++ e) (summarize_semgrep sres) (summarize_bandit bres))],
        by simp [main_run, hs, hb, hg, hl, try_llm, hr, hcc],
        hc1, hc2, hc3, fun hlt => absurd hlt (by omega)⟩
    · exact ⟨_, [Post.issueComment (body_fallback
          (chars "LLM unavailable or not ready. Proceeding with static analysis only." ++
            chars "\n\n> " ++ e) (summarize_semgrep sres) (summarize_bandit bres))],
        by simp [main_run, hs, hb, hg, hl, try_llm, hr, hcc],
        hc1, hc2, hc3, fun hlt => absurd hlt (by omega)⟩
  · exact ⟨_, [], by simp [main_run, hs, hb, hg, hl, try_llm, hr],
      hc1, hc2, hc3, fun _ => by simp [main_run, hs, hb, hg, hl, try_llm, hr]⟩

/-- C7 witness: the graceful degradation at the concrete run whose model
call raises. -/
theorem C7_model_failure_witness :
    ∃ body rest, (main_run env_model_down).posts = Post.review body :: rest ∧
      containsSeg
        (chars "LLM unavailable or not ready. Proceeding with static analysis only.")
        body = true ∧
      containsSeg (summarize_semgrep ⟨some []⟩) body = true ∧
      containsSeg (summarize_bandit ⟨some []⟩) body = true ∧
      (env_model_down.reviewStatus < 400 →
        (main_run env_model_down).exitCode = 0) :=
  C7_model_failure_degrades env_model_down ⟨some []⟩ ⟨some []⟩
    (chars "conn refused") rfl rfl (by decide) rfl

/-- C3: the claim fails on the code: in end-to-end scenario 1 the posted
body is the success template around the model answer alone — it contains
neither the pruned diffs, nor the Semgrep line, nor the Bandit no-findings
sentence. -/
theorem C3_counterexample :
    (main_run env_scenario1).posts =
      [Post.review (body_success (chars "MODEL ANSWER"))] ∧
    containsSeg (semgrep_line sem_f1)
      (body_success (chars "MODEL ANSWER")) = false ∧
    containsSeg (chars "```diff") (body_success (chars "MODEL ANSWER")) = false ∧
    containsSeg (chars "No Bandit findings.")
      (body_success (chars "MODEL ANSWER")) = false := by
  refine ⟨rfl, by decide, by decide, by decide⟩

/-- C3 amended: in end-to-end scenario 1 the pruned diffs of both files, the
Semgrep line and the Bandit no-findings sentence all appear in the PROMPT
sent to the model, and the posted body contains the model's answer text. -/
theorem C3_scenario1_prompt_and_body :
    (main_run env_scenario1).posts =
      [Post.review (body_success (chars "MODEL ANSWER"))] ∧
    containsSeg (chars "MODEL ANSWER")
      (body_success (chars "MODEL ANSWER")) = true ∧
    containsSeg (entry_of file_a) (main_run env_scenario1).promptUsed = true ∧
    containsSeg (entry_of file_b) (main_run env_scenario1).promptUsed = true ∧
    containsSeg (semgrep_line sem_f1) (main_run env_scenario1).promptUsed = true ∧
    containsSeg (chars "No Bandit findings.")
      (main_run env_scenario1).promptUsed = true := by
  refine ⟨rfl, by decide, by decide, by decide, by decide, by decide⟩
